import Mathlib

/-!
Shallow embedding of the NS16550a UART character-device driver from
src/os/src/drivers/chardev/ns16550a.rs.

Modelling conventions:
- The bitflags registers IER, LSR and MCR are embedded as structures of
  Booleans, one field per named flag of the source's bitflags declaration
  (field order follows bit order).
- NS16550aRaw in the source holds only a base address; the memory-mapped
  registers live at that address.  The embedding merges the device-visible
  register state into the NS16550aRaw structure, together with a trace
  (log) of every volatile register access the driver performs, so that
  claims about which registers a routine touches are statements about the
  log.
- Reading the receiver buffer register clears the hardware's data-available
  condition; the spec states this explicitly (the read implicitly clears
  the data-available condition), and the embedding applies it inside
  NS16550aRaw.read.
- The UPIntrFreeCell critical sections are single-core mutual exclusion;
  each driver entry point runs atomically, so each is embedded as one pure
  state transition.
-/

namespace Ns16550aModel

/-- InterruptEnableRegister flags of the source's bitflags: RX_AVAILABLE is
bit 0 and TX_EMPTY is bit 1. -/
structure IER where
  rx_available : Bool
  tx_empty : Bool
deriving DecidableEq

/-- LineStatusRegister flags of the source's bitflags: DATA_AVAILABLE is
bit 0 and THR_EMPTY is bit 5. -/
structure LSR where
  data_available : Bool
  thr_empty : Bool
deriving DecidableEq

/-- Modem control register flags of the source's bitflags: bits 0 to 3. -/
structure MCR where
  data_terminal_ready : Bool
  request_to_send : Bool
  aux_output1 : Bool
  aux_output2 : Bool
deriving DecidableEq

/-- One volatile register access performed by the raw driver (reads of RBR
and LSR, writes of THR, MCR and IER are the only accesses the driver code
makes). -/
inductive RegAccess where
  | readRBR : RegAccess
  | readLSR : RegAccess
  | writeTHR : Nat → RegAccess
  | writeMCR : MCR → RegAccess
  | writeIER : IER → RegAccess
deriving DecidableEq

/-- Raw device state: the register values visible through the ReadWithoutDLAB
and WriteWithoutDLAB overlays at the base address, plus the access log. -/
structure NS16550aRaw where
  rbr : Nat
  lsr : LSR
  ier : IER
  mcr : MCR
  log : List RegAccess
deriving DecidableEq

/-- Value built by NS16550aRaw::init for the modem control register:
MCR::empty() then set DATA_TERMINAL_READY, REQUEST_TO_SEND and AUX_OUTPUT2. -/
def initMCR : MCR :=
  { data_terminal_ready := true, request_to_send := true,
    aux_output1 := false, aux_output2 := true }

/-- Value built by NS16550aRaw::init for the interrupt enable register:
exactly IER::RX_AVAILABLE. -/
def initIER : IER :=
  { rx_available := true, tx_empty := false }

/-- NS16550aRaw::init: writes initMCR to MCR, then initIER to IER; no other
register is touched. -/
def NS16550aRaw.init (hw : NS16550aRaw) : NS16550aRaw :=
  { hw with
    mcr := initMCR, ier := initIER,
    log := hw.log ++ [RegAccess.writeMCR initMCR, RegAccess.writeIER initIER] }

/-- NS16550aRaw::read: reads LSR once; if DATA_AVAILABLE is set, reads RBR
and returns the byte (the hardware clears data-available when RBR is read),
otherwise returns none.  Never loops. -/
def NS16550aRaw.read (hw : NS16550aRaw) : Option Nat × NS16550aRaw :=
  if hw.lsr.data_available then
    (some hw.rbr,
      { hw with
        lsr := { hw.lsr with data_available := false },
        log := hw.log ++ [RegAccess.readLSR, RegAccess.readRBR] })
  else
    (none, { hw with log := hw.log ++ [RegAccess.readLSR] })

/-- NS16550aRaw::write: loops reading LSR until THR_EMPTY is set, then
writes the byte to THR once and returns.  The hardware evolves while the
loop spins, so the THR_EMPTY bit observed by the loop's i-th LSR read is an
oracle thrEmptyAt i; the loop is embedded with fuel (first argument after
the oracle is the iteration index, second the fuel), and termination of the
source loop corresponds to some fuel sufficing. -/
def NS16550aRaw.write (ch : Nat) (thrEmptyAt : Nat → Bool) :
    Nat → Nat → NS16550aRaw → Option NS16550aRaw
  | _, 0, _ => none
  | i, fuel + 1, hw =>
    if thrEmptyAt i then
      some { hw with log := hw.log ++ [RegAccess.readLSR, RegAccess.writeTHR ch] }
    else
      NS16550aRaw.write ch thrEmptyAt (i + 1) fuel
        { hw with log := hw.log ++ [RegAccess.readLSR] }

/-- Contents of the UPIntrFreeCell of NS16550a: the raw device and the
receive FIFO (VecDeque, front at the head of the list). -/
structure NS16550aInner where
  ns16550a : NS16550aRaw
  read_buffer : List Nat
deriving DecidableEq

/-- Device state.  waker_list is the field of the NS16550a struct (wakers
identified by numbers; nothing in the driver file ever pushes into it).
condvarWaiters is modelled from the spec: the source's read() parks through
self.condvar.wait_no_sched() although the struct declares no condvar field,
and crate::sync::Condvar is not among the repository files under src/; per
the spec's wait-queue description it is an ordered queue of parked task
ids, appended by wait and drained only by an explicit signal, which this
driver never issues. -/
structure NS16550a where
  inner : NS16550aInner
  waker_list : List Nat
  condvarWaiters : List Nat
deriving DecidableEq

/-- NS16550a::new: builds the inner state with an empty read_buffer and an
empty waker_list; the call to the raw init is commented out in the source,
so the register state (including the access log) is left untouched. -/
def NS16550a.new (hw : NS16550aRaw) : NS16550a :=
  { inner := { ns16550a := hw, read_buffer := [] },
    waker_list := [], condvarWaiters := [] }

/-- NS16550a::read_buffer_is_empty: inspects the buffer under the cell. -/
def NS16550a.read_buffer_is_empty (st : NS16550a) : Bool :=
  st.inner.read_buffer.isEmpty

/-- CharDevice::init for NS16550a: forwards to the raw init under the cell. -/
def NS16550a.init (st : NS16550a) : NS16550a :=
  { st with inner := { st.inner with ns16550a := st.inner.ns16550a.init } }

/-- Outcome of one iteration of the read() loop. -/
inductive ReadOutcome where
  | returned : Nat → ReadOutcome
  | parked : ReadOutcome
deriving DecidableEq

/-- One iteration of CharDevice::read for task t: pop_front on the buffer
and return the byte if there is one; otherwise park the task through the
condvar and hand control to the scheduler. -/
def NS16550a.readStep (t : Nat) (st : NS16550a) : ReadOutcome × NS16550a :=
  match st.inner.read_buffer with
  | ch :: rest =>
    (ReadOutcome.returned ch,
      { st with inner := { st.inner with read_buffer := rest } })
  | [] =>
    (ReadOutcome.parked, { st with condvarWaiters := st.condvarWaiters ++ [t] })

/-- CharDevice::handle_irq: under the cell, poll the raw read and push_back
the byte onto the buffer when one is present, then remove one waker from
the device's own waker_list and wake it (the source calls waker_list.pop();
VecDeque has no such method, and the spec describes the reference wake
order as most-recently-registered, so removal is from the back; popping an
empty list wakes nobody).  The woken waker, if any, is the second
component. -/
def NS16550a.handle_irq (st : NS16550a) : NS16550a × Option Nat :=
  let r := st.inner.ns16550a.read
  let buf :=
    match r.1 with
    | some ch => st.inner.read_buffer ++ [ch]
    | none => st.inner.read_buffer
  ({ inner := { ns16550a := r.2, read_buffer := buf },
     waker_list := st.waker_list.dropLast,
     condvarWaiters := st.condvarWaiters },
   st.waker_list.getLast?)

/-- Environment step: the hardware receives byte b (it appears in RBR and
LSR's data-available goes high) and the platform interrupt controller
dispatches handle_irq. -/
def deliverByte (b : Nat) (st : NS16550a) : NS16550a × Option Nat :=
  NS16550a.handle_irq
    { st with inner := { st.inner with ns16550a :=
        { st.inner.ns16550a with
          rbr := b,
          lsr := { st.inner.ns16550a.lsr with data_available := true } } } }

/-- Deliver a sequence of bytes, one interrupt per byte. -/
def deliverAll (bs : List Nat) (st : NS16550a) : NS16550a :=
  bs.foldl (fun s b => (deliverByte b s).1) st

/-- Run n read() calls by task t, collecting the returned bytes; a call
that parks ends the run. -/
def readN (t : Nat) : Nat → NS16550a → List Nat × NS16550a
  | 0, st => ([], st)
  | n + 1, st =>
    match NS16550a.readStep t st with
    | (ReadOutcome.returned ch, st1) =>
      let r := readN t n st1
      (ch :: r.1, r.2)
    | (ReadOutcome.parked, st1) => ([], st1)

/-- State of the AsyncCharWriter future: the uart it polls and its own
waker_list field (distinct from the NS16550a's waker_list). -/
structure AsyncCharWriter where
  uart : NS16550a
  waker_list : List Nat
deriving DecidableEq

/-- Future::poll for AsyncCharWriter with waker w: read LSR through the
write end; if THR_EMPTY is set report Ready (true), otherwise push the
caller's waker onto the writer's own waker_list and report Pending
(false). -/
def AsyncCharWriter.poll (w : Nat) (acw : AsyncCharWriter) : Bool × AsyncCharWriter :=
  if acw.uart.inner.ns16550a.lsr.thr_empty then
    (true, acw)
  else
    (false, { acw with waker_list := acw.waker_list ++ [w] })

/-- Concrete idle hardware state used by the concrete evaluations: no data
available, transmitter busy, everything cleared, empty access log. -/
def hw0 : NS16550aRaw :=
  { rbr := 0,
    lsr := { data_available := false, thr_empty := false },
    ier := { rx_available := false, tx_empty := false },
    mcr := { data_terminal_ready := false, request_to_send := false,
             aux_output1 := false, aux_output2 := false },
    log := [] }

/-- Concrete writer over a fresh device whose transmitter is busy. -/
def acw0 : AsyncCharWriter :=
  { uart := NS16550a.new hw0, waker_list := [] }

/-- Delivering one byte through the interrupt path appends exactly that
byte at the tail of the receive buffer. -/
theorem deliverByte_read_buffer (b : Nat) (st : NS16550a) :
    (deliverByte b st).1.inner.read_buffer = st.inner.read_buffer ++ [b] := by
  simp [deliverByte, NS16550a.handle_irq, NS16550aRaw.read]

/-- Delivering a sequence of bytes appends them in order at the tail. -/
theorem deliverAll_read_buffer (bs : List Nat) (st : NS16550a) :
    (deliverAll bs st).inner.read_buffer = st.inner.read_buffer ++ bs := by
  induction bs generalizing st with
  | nil => simp [deliverAll]
  | cons b bs ih =>
    have h1 : deliverAll (b :: bs) st = deliverAll bs (deliverByte b st).1 := by
      simp [deliverAll]
    rw [h1, ih, deliverByte_read_buffer]
    simp

/-- Running as many read() calls as the buffer holds returns the buffer's
contents front to back. -/
theorem readN_returns (bs : List Nat) (t : Nat) (st : NS16550a)
    (h : st.inner.read_buffer = bs) : (readN t bs.length st).1 = bs := by
  induction bs generalizing st with
  | nil => simp [readN]
  | cons b bs ih =>
    simp only [List.length_cons, readN, NS16550a.readStep, h]
    exact congrArg (b :: ·) (ih _ rfl)

/-- Claim C1: bytes delivered one per handle_irq invocation while no reader
is waiting are returned by subsequent read() calls in exactly the arrival
order: handle_irq appends at the buffer's tail, read() pops the front, so
consumption order equals arrival order (FIFO). -/
theorem fifo_order_preserved (bs : List Nat) (hw : NS16550aRaw) (t : Nat) :
    (readN t bs.length (deliverAll bs (NS16550a.new hw))).1 = bs :=
  readN_returns bs t _ (by rw [deliverAll_read_buffer]; rfl)

/-- Claim C2 (divergence of the code from the claim, at a concrete input):
task 7 calls read() on the fresh empty device and parks on the condvar; the
hardware then delivers byte 0x41 and handle_irq runs.  The byte reaches the
buffer, but handle_irq wakes nobody (it pops the device's waker_list, which
nothing pushes, and never signals the condvar), so task 7 is still parked
on the condvar after the interrupt, contradicting the claim that the
blocked reader is woken by the handler. -/
theorem blocked_reader_never_woken :
    (NS16550a.readStep 7 (NS16550a.new hw0)).1 = ReadOutcome.parked
    ∧ (deliverByte 65 (NS16550a.readStep 7 (NS16550a.new hw0)).2).2 = none
    ∧ (deliverByte 65 (NS16550a.readStep 7 (NS16550a.new hw0)).2).1.condvarWaiters = [7]
    ∧ (deliverByte 65 (NS16550a.readStep 7 (NS16550a.new hw0)).2).1.inner.read_buffer = [65] :=
  ⟨rfl, rfl, rfl, rfl⟩

/-- Claim C3 (divergence of the code from the claim, at a concrete input):
a write-readiness poll on a device whose transmitter is busy returns
Pending and stores waker 3 in the AsyncCharWriter's own waker_list; the
driver's only ready-event, handle_irq, draws its one wake exclusively from
the NS16550a's waker_list (last conjunct, for every device state), so it
wakes nobody here and the stored waker 3 — which sits in the writer's
separate list that no driver code consumes — is never invoked. -/
theorem stored_write_waker_never_invoked :
    (AsyncCharWriter.poll 3 acw0).1 = false
    ∧ (AsyncCharWriter.poll 3 acw0).2.waker_list = [3]
    ∧ (NS16550a.handle_irq (AsyncCharWriter.poll 3 acw0).2.uart).2 = none
    ∧ (∀ st : NS16550a, (NS16550a.handle_irq st).2 = st.waker_list.getLast?) :=
  ⟨rfl, rfl, rfl, fun _ => rfl⟩

/-- Claim C4: one handle_irq invocation appends exactly one byte to the
buffer's tail when the line status reports data available and leaves the
buffer unchanged on a spurious interrupt; it wakes at most one waiter (the
most recently registered one, when the device's waker_list is nonempty) and
removes exactly the woken handle from that list. -/
theorem handle_irq_one_byte_one_wake (st : NS16550a) :
    ((NS16550a.handle_irq st).1.inner.read_buffer =
      if st.inner.ns16550a.lsr.data_available then
        st.inner.read_buffer ++ [st.inner.ns16550a.rbr]
      else st.inner.read_buffer)
    ∧ (NS16550a.handle_irq st).2 = st.waker_list.getLast?
    ∧ (NS16550a.handle_irq st).1.waker_list = st.waker_list.dropLast
    ∧ (NS16550a.handle_irq st).1.condvarWaiters = st.condvarWaiters := by
  refine ⟨?_, rfl, rfl, rfl⟩
  by_cases h : st.inner.ns16550a.lsr.data_available <;>
    simp [NS16550a.handle_irq, NS16550aRaw.read, h]

/-- Claim C5: after init() the modem control register has exactly the
data-terminal-ready, request-to-send and auxiliary-output-2 flags set and
the interrupt enable register has exactly the receive-data-available flag
set; a second init() leaves the same register values (and init touches no
other register value). -/
theorem init_sets_mcr_ier_idempotent (st : NS16550a) :
    (NS16550a.init st).inner.ns16550a.mcr =
      { data_terminal_ready := true, request_to_send := true,
        aux_output1 := false, aux_output2 := true }
    ∧ (NS16550a.init st).inner.ns16550a.ier =
      { rx_available := true, tx_empty := false }
    ∧ (NS16550a.init (NS16550a.init st)).inner.ns16550a.mcr =
      (NS16550a.init st).inner.ns16550a.mcr
    ∧ (NS16550a.init (NS16550a.init st)).inner.ns16550a.ier =
      (NS16550a.init st).inner.ns16550a.ier
    ∧ (NS16550a.init st).inner.ns16550a.rbr = st.inner.ns16550a.rbr
    ∧ (NS16550a.init st).inner.ns16550a.lsr = st.inner.ns16550a.lsr :=
  ⟨rfl, rfl, rfl, rfl, rfl, rfl⟩

/-- Claim C6: the non-blocking receive poll returns some byte — the one in
the receive data register — exactly when the line status register's
data-available flag is set and none otherwise, and it performs a bounded
number of register accesses (one LSR read, plus one RBR read on success). -/
theorem poll_read_iff_data_available (hw : NS16550aRaw) :
    ((NS16550aRaw.read hw).1 =
      if hw.lsr.data_available then some hw.rbr else none)
    ∧ ((NS16550aRaw.read hw).2.log = hw.log ++
        (if hw.lsr.data_available then [RegAccess.readLSR, RegAccess.readRBR]
         else [RegAccess.readLSR]))
    ∧ (NS16550aRaw.read hw).2.log.length ≤ hw.log.length + 2 := by
  by_cases h : hw.lsr.data_available <;> simp [NS16550aRaw.read, h]

/-- Claim C7: read_buffer_is_empty() holds exactly when a read() call in
that state would find the buffer empty and park the caller as a waiter
instead of popping and returning a byte. -/
theorem read_buffer_is_empty_iff_parks (st : NS16550a) (t : Nat) :
    st.read_buffer_is_empty = true ↔
      (NS16550a.readStep t st).1 = ReadOutcome.parked := by
  cases h : st.inner.read_buffer <;>
    simp [NS16550a.read_buffer_is_empty, NS16550a.readStep, h]

/-- Claim C9: init writes the modem control and interrupt enable registers
with exactly the listed flags and performs no other register access: the
transmit-empty interrupt-enable bit and the auxiliary-output-1 modem bit
end up clear, so the driver never requests a transmit-empty interrupt. -/
theorem init_never_enables_tx_interrupt (hw : NS16550aRaw) :
    (NS16550aRaw.init hw).ier.tx_empty = false
    ∧ (NS16550aRaw.init hw).mcr.aux_output1 = false
    ∧ (NS16550aRaw.init hw).ier = { rx_available := true, tx_empty := false }
    ∧ (NS16550aRaw.init hw).mcr =
      { data_terminal_ready := true, request_to_send := true,
        aux_output1 := false, aux_output2 := true }
    ∧ (NS16550aRaw.init hw).log = hw.log ++
      [RegAccess.writeMCR { data_terminal_ready := true, request_to_send := true,
                            aux_output1 := false, aux_output2 := true },
       RegAccess.writeIER { rx_available := true, tx_empty := false }] :=
  ⟨rfl, rfl, rfl, rfl, rfl⟩

/-- Claim C10: new() performs no hardware register access (the raw state,
including its access log, is returned untouched) and starts with an empty
receive buffer and an empty waker collection, so read_buffer_is_empty()
holds and a read() call would park. -/
theorem new_touches_no_register_and_is_empty (hw : NS16550aRaw) (t : Nat) :
    (NS16550a.new hw).inner.ns16550a = hw
    ∧ (NS16550a.new hw).inner.read_buffer = []
    ∧ (NS16550a.new hw).waker_list = []
    ∧ (NS16550a.new hw).read_buffer_is_empty = true
    ∧ (NS16550a.readStep t (NS16550a.new hw)).1 = ReadOutcome.parked :=
  ⟨rfl, rfl, rfl, rfl, rfl⟩

/-- When THR_EMPTY is observed at some iteration, enough fuel makes the
spinning write succeed. -/
theorem write_some_of_env (ch : Nat) (env : Nat → Bool) :
    ∀ (i start : Nat) (hw : NS16550aRaw), env (start + i) = true →
      (NS16550aRaw.write ch env start (i + 1) hw).isSome := by
  intro i
  induction i with
  | zero =>
    intro start hw h
    rw [Nat.add_zero] at h
    simp [NS16550aRaw.write, h]
  | succ j ih =>
    intro start hw h
    by_cases h0 : env start = true
    · simp [NS16550aRaw.write, h0]
    · have h2 : env (start + 1 + j) = true := by
        rw [show start + 1 + j = start + (j + 1) from by omega]
        exact h
      rw [NS16550aRaw.write, if_neg h0]
      exact ih (start + 1) _ h2

/-- When the spinning write succeeds, THR_EMPTY was observed at some
iteration. -/
theorem write_env_of_some (ch : Nat) (env : Nat → Bool) :
    ∀ (fuel start : Nat) (hw hw1 : NS16550aRaw),
      NS16550aRaw.write ch env start fuel hw = some hw1 →
      ∃ i, env (start + i) = true := by
  intro fuel
  induction fuel with
  | zero =>
    intro start hw hw1 h
    simp [NS16550aRaw.write] at h
  | succ n ih =>
    intro start hw hw1 h
    by_cases h0 : env start = true
    · exact ⟨0, by rwa [Nat.add_zero]⟩
    · simp only [NS16550aRaw.write, h0, Bool.false_eq_true, if_false] at h
      obtain ⟨i, hi⟩ := ih (start + 1) _ _ h
      exact ⟨i + 1, by rw [show start + (i + 1) = start + 1 + i from by omega]; exact hi⟩

/-- When the spinning write succeeds, the only register accesses it made
are some number of LSR reads followed by one THR write of the byte, and no
register value changed. -/
theorem write_log_of_some (ch : Nat) (env : Nat → Bool) :
    ∀ (fuel start : Nat) (hw hw1 : NS16550aRaw),
      NS16550aRaw.write ch env start fuel hw = some hw1 →
      (∃ k, hw1.log = hw.log ++
        (List.replicate (k + 1) RegAccess.readLSR ++ [RegAccess.writeTHR ch]))
      ∧ hw1.rbr = hw.rbr ∧ hw1.lsr = hw.lsr ∧ hw1.ier = hw.ier ∧ hw1.mcr = hw.mcr := by
  intro fuel
  induction fuel with
  | zero =>
    intro start hw hw1 h
    simp [NS16550aRaw.write] at h
  | succ n ih =>
    intro start hw hw1 h
    by_cases h0 : env start = true
    · simp only [NS16550aRaw.write, h0, if_true, Option.some.injEq] at h
      subst h
      exact ⟨⟨0, by simp⟩, rfl, rfl, rfl, rfl⟩
    · simp only [NS16550aRaw.write, h0, Bool.false_eq_true, if_false] at h
      obtain ⟨⟨k, hk⟩, h1, h2, h3, h4⟩ := ih (start + 1) _ _ h
      refine ⟨⟨k + 1, ?_⟩, h1, h2, h3, h4⟩
      rw [hk]
      simp [List.replicate_succ]

/-- Claim C8: the raw write spins on the line status register and
terminates exactly when transmit-holding-empty is eventually observed; on
termination its register accesses are LSR reads followed by a single THR
write of the byte ch — the only register write it performs — and it changes
no register value. -/
theorem write_spins_until_thr_empty (ch : Nat) (env : Nat → Bool) (hw : NS16550aRaw) :
    ((∃ fuel, (NS16550aRaw.write ch env 0 fuel hw).isSome) ↔ ∃ i, env i = true)
    ∧ (∀ fuel hw1, NS16550aRaw.write ch env 0 fuel hw = some hw1 →
        (∃ k, hw1.log = hw.log ++
          (List.replicate (k + 1) RegAccess.readLSR ++ [RegAccess.writeTHR ch]))
        ∧ hw1.rbr = hw.rbr ∧ hw1.lsr = hw.lsr ∧ hw1.ier = hw.ier ∧ hw1.mcr = hw.mcr) := by
  constructor
  · constructor
    · rintro ⟨fuel, hsome⟩
      obtain ⟨hw1, h1⟩ := Option.isSome_iff_exists.mp hsome
      obtain ⟨i, hi⟩ := write_env_of_some ch env fuel 0 hw hw1 h1
      exact ⟨i, by rwa [Nat.zero_add] at hi⟩
    · rintro ⟨i, hi⟩
      exact ⟨i + 1, write_some_of_env ch env i 0 hw (by rwa [Nat.zero_add])⟩
  · intro fuel hw1 h
    exact write_log_of_some ch env fuel 0 hw hw1 h

end Ns16550aModel
